import Mathlib

/-!
Verification development for the RagTech 3200VA read-only UPS monitor
(`nobreak-core` + `nobreak-cli`).  The Rust sources are shallowly embedded:

* `crates/nobreak-core/src/monitor.rs` — the `Monitor` supervisor and its
  `tick` state machine, embedded as a pure transition function over an
  explicit `MonState` together with a per-tick observation record
  (`TickObs`) carrying the driver's scripted outcomes and the clock
  readings the Rust code obtains from `Instant`.
* `crates/nobreak-core/src/driver.rs` — the `decode_raw_frame` codec over
  byte lists, and `VendorShimDriver::connect` over an explicit driver
  state.
* `crates/nobreak-cli/src/exporter.rs` — the per-file decision made by
  `prune_old_log_files`.

Machine integers are modelled as `Nat` (no arithmetic here can overflow a
`u64`/`u128` under the modelled preconditions; `Duration` values are
nanosecond-precision in Rust but all constants involved are whole
milliseconds, so durations are modelled in milliseconds).  The `f64`
estimate arithmetic of the codec is modelled over `ℚ` with the exact
constants of the source (`77.4 = 387/5`).  Wall-clock timestamps
(`chrono::DateTime`) are not modelled; no verified property mentions them.
-/

set_option maxHeartbeats 1000000

namespace Nobreak

/-- A JSON-ish value, enough to model the `serde_json::Value` entries that
the codec and the snapshots produce. -/
inductive JVal where
  | null : JVal
  | num (q : ℚ) : JVal
  | str (s : String) : JVal
  | bool (b : Bool) : JVal
  deriving DecidableEq, Repr

/-- `DeviceInfo` of driver.rs. -/
structure DeviceInfo where
  id : String
  model : String
  transport : String
  path : String
  vid : String
  pid : String
  deriving DecidableEq, Repr

/-- `DriverError` of driver.rs. -/
inductive DriverError where
  | deviceNotFound : DriverError
  | disconnected : DriverError
  | timeout : DriverError
  | io (msg : String) : DriverError
  | other (msg : String) : DriverError
  deriving DecidableEq, Repr

/-- The `Display` impl derived by `thiserror` for `DriverError`
(driver.rs lines 32-44): this is the `err.to_string()` the monitor puts
into `status.failures`. -/
def errString : DriverError → String
  | .deviceNotFound => "device not found"
  | .disconnected => "device disconnected"
  | .timeout => "timeout"
  | .io msg => "io error: " ++ msg
  | .other msg => "driver error: " ++ msg

/-- `ReadResult` of driver.rs.  `vars` is the ordered map of JSON values;
its content passes through `tick` untouched. -/
structure ReadResult where
  status_code : String
  failures : List String
  vars : List (String × JVal)
  deriving DecidableEq, Repr

/-- Outcome of the `timeout(poll_timeout, driver.read())` call inside
`Monitor::tick`: driver success, driver error, or the tokio timeout
elapsing. -/
inductive ReadOutcome where
  | ok (r : ReadResult) : ReadOutcome
  | err (e : DriverError) : ReadOutcome
  | timeout : ReadOutcome
  deriving DecidableEq, Repr

/-- Outcome of `driver.connect(target_id)`. -/
inductive ConnectOutcome where
  | ok (d : DeviceInfo) : ConnectOutcome
  | err (e : DriverError) : ConnectOutcome
  deriving DecidableEq, Repr

/-- Everything one call to `tick` observes from the outside world: the
driver call results this tick would see, and the `Instant` readings.
`elapsed` is `started.elapsed()` in ms, `mono` is
`process_start.elapsed()` in ms, `ageSinceOk` is
`last_ok_instant.elapsed()` in ms (used only when a success has been
recorded). -/
structure TickObs where
  connect : ConnectOutcome
  read : ReadOutcome
  elapsed : Nat
  mono : Nat
  ageSinceOk : Nat
  deriving DecidableEq, Repr

/-- `MonitorConfig` of config.rs; durations in milliseconds. -/
structure MonitorConfig where
  sample_interval : Nat
  sample_interval_min : Nat
  sample_interval_max : Nat
  stale_after : Nat
  disconnected_after : Nat
  poll_timeout : Nat
  error_threshold : Nat
  auto_tune : Bool
  deriving DecidableEq, Repr

/-- `ConnectionState` of monitor.rs. -/
inductive ConnectionState where
  | Disconnected : ConnectionState
  | Connecting : ConnectionState
  | Streaming : ConnectionState
  | Degraded : ConnectionState
  | Reconnecting : ConnectionState
  deriving DecidableEq, Repr

/-- The mutable state of `Monitor` (monitor.rs lines 20-34) together with
the state of the in-memory mock driver the spec prescribes for testing
(§9: a mock satisfying the `UpsDriver` contract: `connect` success makes
`is_connected` true, `disconnect` makes it false) and two
instrumentation counters (`connectCalls`, `disconnectCalls`) counting the
driver calls issued by the monitor. -/
structure MonState where
  state : ConnectionState
  target_id : Option String
  current : Option DeviceInfo
  errors_in_row : Nat
  reads_ok : Nat
  reads_err : Nat
  reconnects : Nat
  effective_interval : Nat
  lastOk : Bool
  driverConnected : Bool
  connectCalls : Nat
  disconnectCalls : Nat
  deriving DecidableEq, Repr

/-- `Monitor::new` (monitor.rs lines 37-53): constructed disconnected,
all counters zero, `effective_interval = config.sample_interval`. -/
def mkMonitor (config : MonitorConfig) (target_id : Option String) : MonState :=
  { state := .Disconnected
    target_id := target_id
    current := none
    errors_in_row := 0
    reads_ok := 0
    reads_err := 0
    reconnects := 0
    effective_interval := config.sample_interval
    lastOk := false
    driverConnected := false
    connectCalls := 0
    disconnectCalls := 0 }

/-- `Freshness` of snapshot.rs (the wall-clock `last_ok_ts` field is not
modelled). -/
structure Freshness where
  rtt_ms : Nat
  age_ms : Nat
  stale : Bool
  deriving DecidableEq, Repr

/-- `MonitorStatus` of snapshot.rs. -/
structure MonitorStatus where
  code : String
  failures : List String
  deriving DecidableEq, Repr

/-- `SnapshotQuality` of snapshot.rs (`stale_seconds`, an `f64` derived
from `age_ms`, is not modelled). -/
structure SnapshotQuality where
  poll_ms : Nat
  reads_ok : Nat
  reads_err : Nat
  reconnects : Nat
  effective_interval_ms : Nat
  deriving DecidableEq, Repr

/-- `Transport` of snapshot.rs (`kind` is the field serialized as
`"type"`). -/
structure Transport where
  kind : String
  path : String
  vid : String
  pid : String
  deriving DecidableEq, Repr

/-- `SnapshotDevice` of snapshot.rs. -/
structure SnapshotDevice where
  id : String
  model : String
  transport : Transport
  connected : Bool
  deriving DecidableEq, Repr

/-- `Snapshot` of snapshot.rs (the wall-clock `ts` field is not
modelled). -/
structure Snapshot where
  mono_ms : Nat
  device : SnapshotDevice
  freshness : Freshness
  status : MonitorStatus
  vars : List (String × JVal)
  quality : SnapshotQuality
  deriving DecidableEq, Repr

/-- The branch condition `rtt > self.effective_interval.mul_f64(0.6)` of
`tune_interval`, in exact arithmetic (`5 * rtt > 3 * eff`).  Rust rounds
`eff * 0.6` through `f64`; no verified property depends on which branch
an individual success takes, only on the clamping both branches share. -/
def rttExceeds (rtt eff : Nat) : Bool :=
  decide (5 * rtt > 3 * eff)

/-- `Monitor::tune_interval` (monitor.rs lines 149-169), returning the new
`effective_interval`.  `reads_ok` is the counter value at call time
(already incremented on the success path).  `Nat` subtraction is
saturating, matching `Duration::saturating_sub`. -/
def tune_interval (config : MonitorConfig) (eff reads_ok rtt : Nat) (ok : Bool) : Nat :=
  if !ok then
    min (eff + 250) config.sample_interval_max
  else if rttExceeds rtt eff then
    min (eff + 200) config.sample_interval_max
  else if reads_ok % 30 == 0 then
    max (eff - 100) config.sample_interval_min
  else
    eff

/-- `Monitor::snapshot_device` (monitor.rs lines 247-271). -/
def snapshot_device (m : MonState) (connected : Bool) : SnapshotDevice :=
  let dev := m.current.getD
    { id := m.target_id.getD "unknown"
      model := "RagTech 3200VA"
      transport := "unknown"
      path := ""
      vid := ""
      pid := "" }
  { id := dev.id
    model := dev.model
    transport := { kind := dev.transport, path := dev.path, vid := dev.vid, pid := dev.pid }
    connected := connected }

/-- `Monitor::connected_snapshot` (monitor.rs lines 171-205). -/
def connected_snapshot (m : MonState) (obs : TickObs) (status_code : String)
    (failures : List String) (vars : List (String × JVal)) (rtt : Nat) : Snapshot :=
  { mono_ms := obs.mono
    device := snapshot_device m true
    freshness := { rtt_ms := rtt, age_ms := 0, stale := false }
    status := { code := status_code, failures := failures }
    vars := vars
    quality :=
      { poll_ms := rtt
        reads_ok := m.reads_ok
        reads_err := m.reads_err
        reconnects := m.reconnects
        effective_interval_ms := m.effective_interval } }

/-- `Monitor::disconnected_snapshot` (monitor.rs lines 207-245). -/
def disconnected_snapshot (config : MonitorConfig) (m : MonState) (obs : TickObs)
    (reason : String) (rtt_ms : Nat) : Snapshot :=
  let age_ms := if m.lastOk then obs.ageSinceOk else config.disconnected_after
  { mono_ms := obs.mono
    device := snapshot_device m false
    freshness := { rtt_ms := rtt_ms, age_ms := age_ms, stale := decide (age_ms > config.stale_after) }
    status := { code := "DISCONNECTED", failures := [reason] }
    vars := []
    quality :=
      { poll_ms := rtt_ms
        reads_ok := m.reads_ok
        reads_err := m.reads_err
        reconnects := m.reconnects
        effective_interval_ms := m.effective_interval } }

/-- The part of `Monitor::tick` after the connection check (monitor.rs
lines 84-146): the timeout-wrapped read and the three outcome arms. -/
def tickRead (config : MonitorConfig) (m : MonState) (obs : TickObs) :
    MonState × Snapshot :=
  match obs.read with
  | .ok r =>
      let m := { m with
        reads_ok := m.reads_ok + 1
        errors_in_row := 0
        lastOk := true
        state := .Streaming }
      let m := if config.auto_tune then
          { m with effective_interval :=
              tune_interval config m.effective_interval m.reads_ok obs.elapsed true }
        else m
      (m, connected_snapshot m obs r.status_code r.failures r.vars obs.elapsed)
  | .err e =>
      let m := { m with
        reads_err := m.reads_err + 1
        errors_in_row := m.errors_in_row + 1 }
      let m := if config.auto_tune then
          { m with effective_interval :=
              tune_interval config m.effective_interval m.reads_ok config.poll_timeout false }
        else m
      let m := if m.errors_in_row ≥ config.error_threshold then
          { m with
            state := .Reconnecting
            driverConnected := false
            disconnectCalls := m.disconnectCalls + 1
            reconnects := m.reconnects + 1
            current := none }
        else { m with state := .Degraded }
      (m, disconnected_snapshot config m obs (errString e) obs.elapsed)
  | .timeout =>
      let m := { m with
        reads_err := m.reads_err + 1
        errors_in_row := m.errors_in_row + 1 }
      let m := if config.auto_tune then
          { m with effective_interval :=
              tune_interval config m.effective_interval m.reads_ok config.poll_timeout false }
        else m
      let m := if m.errors_in_row ≥ config.error_threshold then
          { m with
            state := .Reconnecting
            driverConnected := false
            disconnectCalls := m.disconnectCalls + 1
            reconnects := m.reconnects + 1
            current := none }
        else { m with state := .Degraded }
      (m, disconnected_snapshot config m obs "timeout" config.poll_timeout)

/-- `Monitor::tick` (monitor.rs lines 71-147).  When the driver is not
connected it runs `ensure_connected` (monitor.rs lines 63-69): state is
set to `Connecting`, `driver.connect` is attempted; on success `current`
is stored, state becomes `Streaming` and the read proceeds; on failure
the error counters advance, state becomes `Disconnected` and a
disconnected snapshot with `rtt_ms = 0` is returned. -/
def tick (config : MonitorConfig) (m : MonState) (obs : TickObs) :
    MonState × Snapshot :=
  if m.driverConnected then
    tickRead config m obs
  else
    let m := { m with connectCalls := m.connectCalls + 1, state := .Connecting }
    match obs.connect with
    | .ok d =>
        let m := { m with driverConnected := true, current := some d, state := .Streaming }
        tickRead config m obs
    | .err e =>
        let m := { m with
          reads_err := m.reads_err + 1
          errors_in_row := m.errors_in_row + 1
          state := .Disconnected }
        (m, disconnected_snapshot config m obs (errString e) 0)

/-- Folding `tick` over a list of per-tick observations, keeping the
monitor state. -/
def runTicks (config : MonitorConfig) (m : MonState) (obss : List TickObs) : MonState :=
  obss.foldl (fun st o => (tick config st o).1) m

/-! ## Frame codec: `VendorShimDriver::decode_raw_frame` (driver.rs 277-400) -/

/-- Upper-case hex digit. -/
def hexDigitChar (n : Nat) : Char :=
  "0123456789ABCDEF".data.getD (n % 16) '0'

/-- The `format!("{b:02X}")` rendering of a byte. -/
def byteHex (b : Nat) : String :=
  ⟨[hexDigitChar (b / 16), hexDigitChar b]⟩

/-- The `format!("0x{b:02X}")` rendering used in the header. -/
def byteHex0x (b : Nat) : String :=
  "0x" ++ byteHex b

/-- The word-collection loop (driver.rs 288-297): pairs `(lo, hi)` from
byte index 2 upward in steps of 2, stopping as soon as the pair no longer
lies strictly before the last byte (`idx + 1 >= len - 1`). -/
def wordPairs (frame : List Nat) (idx : Nat) : List (Nat × Nat) :=
  if h : idx + 1 < frame.length - 1 then
    (frame.getD idx 0, frame.getD (idx + 1) 0) :: wordPairs frame (idx + 2)
  else
    []
  termination_by frame.length - idx
  decreasing_by omega

/-- `words_le` (`u16::from_le_bytes([lo, hi])`), guarded by
`frame.len() >= 4` as in the source. -/
def words_le (frame : List Nat) : List Nat :=
  if 4 ≤ frame.length then (wordPairs frame 2).map (fun p => p.1 + 256 * p.2) else []

/-- `words_be` (`u16::from_be_bytes([lo, hi])`). -/
def words_be (frame : List Nat) : List Nat :=
  if 4 ≤ frame.length then (wordPairs frame 2).map (fun p => 256 * p.1 + p.2) else []

/-- The `u16_be` closure (driver.rs 278-283). -/
def u16_be (frame : List Nat) (idx : Nat) : Option Nat :=
  if frame.length ≤ idx + 1 then none
  else some (256 * frame.getD idx 0 + frame.getD (idx + 1) 0)

/-- `frame_aligned` (driver.rs 326-330). -/
def frameAligned (frame : List Nat) : Bool :=
  decide (31 ≤ frame.length) && (frame[0]? == some 0xAA) && (frame[1]? == some 0x21)
    && (frame[2]? == some 0x00) && (frame[3]? == some 0x0C)

/-- `v_input_est` (driver.rs 332-336): `u16_be(11) / 504.0`. -/
def vInput_est (frame : List Nat) : Option ℚ :=
  if frameAligned frame then (u16_be frame 11).map (fun v : Nat => (v : ℚ) / 504) else none

/-- `v_output_est`: `u16_be(23) / 366.0`. -/
def vOutput_est (frame : List Nat) : Option ℚ :=
  if frameAligned frame then (u16_be frame 23).map (fun v : Nat => (v : ℚ) / 366) else none

/-- `v_battery_est`: `u16_be(20) / 1249.0`. -/
def vBattery_est (frame : List Nat) : Option ℚ :=
  if frameAligned frame then (u16_be frame 20).map (fun v : Nat => (v : ℚ) / 1249) else none

/-- `f_output_est`: `u16_be(27) / 77.4` (`77.4 = 387/5` exactly). -/
def fOutput_est (frame : List Nat) : Option ℚ :=
  if frameAligned frame then (u16_be frame 27).map (fun v : Nat => (v : ℚ) / (387 / 5)) else none

/-- `c_battery_est`: `frame[26]` as a number. -/
def cBattery_est (frame : List Nat) : Option ℚ :=
  if frameAligned frame then (frame[26]? : Option Nat).map (fun v => (v : ℚ)) else none

/-- `p_output_est`: `frame[27]` as a number. -/
def pOutput_est (frame : List Nat) : Option ℚ :=
  if frameAligned frame then (frame[27]? : Option Nat).map (fun v => (v : ℚ)) else none

/-- `temperature_est`: `frame[15]` as a number. -/
def temperature_est (frame : List Nat) : Option ℚ :=
  if frameAligned frame then (frame[15]? : Option Nat).map (fun v => (v : ℚ)) else none

/-- A nullable number, as `serde_json` serializes `Option<f64>`. -/
def optNum : Option ℚ → JVal
  | none => .null
  | some q => .num q

/-- The `likely_metrics` JSON object (driver.rs 368-379), as an ordered
key/value list. -/
def likelyMetrics (frame : List Nat) : List (String × JVal) :=
  [ ("vInput_est", optNum (vInput_est frame))
  , ("vOutput_est", optNum (vOutput_est frame))
  , ("vBattery_est", optNum (vBattery_est frame))
  , ("fOutput_est", optNum (fOutput_est frame))
  , ("cBattery_est", optNum (cBattery_est frame))
  , ("pOutput_est", optNum (pOutput_est frame))
  , ("temperature_est", optNum (temperature_est frame))
  , ("frame_aligned", .bool (frameAligned frame))
  , ("mapping_confidence",
      .str (if frameAligned frame then "experimental" else "insufficient_frame_alignment"))
  , ("mapping_note",
      .str "Offsets/scales inferred from observed frames; keep raw bytes for verification") ]

/-- The `header` object of the decoded view (driver.rs 382-389). -/
structure FrameHeader where
  start_byte_hex : String
  frame_code_hex : String
  declared_len : Nat
  actual_len : Nat
  checksum_hex : String
  length_match : Bool
  deriving DecidableEq, Repr

/-- One `byte_map` entry (driver.rs 314-324). -/
structure ByteMapEntry where
  idx : Nat
  hex : String
  dec : Nat
  deriving DecidableEq, Repr

/-- The decoded view returned by `decode_raw_frame`. -/
structure DecodedView where
  header : FrameHeader
  payload_hex : String
  byte_map : List ByteMapEntry
  words_le : List Nat
  words_be : List Nat
  likely_metrics : List (String × JVal)
  notes : List String
  deriving DecidableEq, Repr

/-- `VendorShimDriver::decode_raw_frame` (driver.rs 277-400), a total
function of the input byte string. -/
def decode_raw_frame (frame : List Nat) : DecodedView :=
  let start_byte := frame.headD 0
  let frame_code := frame.getD 1 0
  let declared_len := frame.getD 1 0
  let checksum := (frame.getLast?).getD 0
  let payload_hex :=
    if 3 < frame.length then
      String.join (((frame.drop 2).dropLast).map byteHex)
    else
      ""
  { header :=
      { start_byte_hex := byteHex0x start_byte
        frame_code_hex := byteHex0x frame_code
        declared_len := declared_len
        actual_len := frame.length
        checksum_hex := byteHex0x checksum
        length_match := declared_len == frame.length }
    payload_hex := payload_hex
    byte_map := frame.enum.map (fun p => { idx := p.1, hex := byteHex p.2, dec := p.2 })
    words_le := words_le frame
    words_be := words_be frame
    likely_metrics := likelyMetrics frame
    notes :=
      [ "Decoded from raw CDC frame without write/control commands"
      , "Likely metrics are marked experimental and should be cross-validated" ] }

/-! ## Driver connection: `VendorShimDriver::connect` (driver.rs 409-429) -/

/-- The state `VendorShimDriver` carries across calls that the claims
touch: the stored current device and the open serial handle (an opaque
handle id; `none` means the box has been dropped and the port closed). -/
structure DriverState where
  connected : Option DeviceInfo
  cdc_port : Option Nat
  deriving DecidableEq, Repr

/-- Outcome of `scan_udev_devices()`. -/
inductive ScanOutcome where
  | ok (devs : List DeviceInfo) : ScanOutcome
  | err (e : DriverError) : ScanOutcome
  deriving DecidableEq, Repr

/-- Outcome of `open_cdc_port` (driver.rs 224-229): a fresh handle, or
the underlying serial error message. -/
inductive OpenOutcome where
  | ok (h : Nat) : OpenOutcome
  | err (msg : String) : OpenOutcome
  deriving DecidableEq, Repr

/-- The `DriverError::Io` produced by `open_cdc_port` for the port at
`path` failing with `msg`. -/
def openPortError (path msg : String) : DriverError :=
  .io ("failed to open serial port " ++ path ++ ": " ++ msg)

/-- Device selection (driver.rs 417-419): the first device whose id
equals the preferred id, else the head of the scan list. -/
def chooseDevice (d0 : DeviceInfo) (rest : List DeviceInfo)
    (preferred : Option String) : DeviceInfo :=
  (preferred.bind (fun i => (d0 :: rest).find? (fun d => d.id == i))).getD d0

/-- `VendorShimDriver::connect` (driver.rs 409-429), parameterized by the
outcomes of its two effectful sub-steps (`scan_udev_devices`, and
`open_cdc_port`, consulted only on the CDC path). -/
def vendorConnect (st : DriverState) (preferred : Option String)
    (scan : ScanOutcome) (openRes : OpenOutcome) :
    DriverState × (DeviceInfo ⊕ DriverError) :=
  match scan with
  | .err e => (st, .inr e)
  | .ok [] => ({ connected := none, cdc_port := none }, .inr .deviceNotFound)
  | .ok (d0 :: rest) =>
      let chosen := chooseDevice d0 rest preferred
      let st := { st with cdc_port := none }
      if chosen.transport = "cdc" then
        match openRes with
        | .err msg => (st, .inr (openPortError chosen.path msg))
        | .ok handle =>
            ({ st with connected := some chosen, cdc_port := some handle }, .inl chosen)
      else
        ({ st with connected := some chosen }, .inl chosen)

/-- `VendorShimDriver::is_connected` (driver.rs 519-521). -/
def vendorIsConnected (st : DriverState) : Bool :=
  st.connected.isSome

/-- `VendorShimDriver::current_device` (driver.rs 523-525). -/
def vendorCurrentDevice (st : DriverState) : Option DeviceInfo :=
  st.connected

/-! ## Retention pruning: `prune_old_log_files` (exporter.rs 124-162)

Calendar dates are handled through their proleptic-Gregorian day numbers
(rata die relative to 1970-01-01, the standard days-from-civil
computation); `chrono::NaiveDate` ordering coincides with day-number
ordering, so the source comparison `file_date < cutoff` and the day
subtraction inside `checked_sub_days` become integer comparison and
subtraction of day numbers.  `NaiveDate::parse_from_str(s, "%Y-%m-%d")`
is modelled with chrono's lenient numeric scanning: whitespace is
skipped before every numeric field, the year takes an optional sign
(greedy digits when signed, at most four digits otherwise), month and
day take one or two digits, the literal dashes must match exactly, the
whole input must be consumed, and the parsed triple must be a
calendar-valid date inside chrono's representable year range. -/

/-- chrono's maximum `NaiveDate` year (`internals::MAX_YEAR`,
`i32::MAX >> 13`). -/
def chronoMaxYear : Int := 262143

/-- chrono's minimum `NaiveDate` year (`internals::MIN_YEAR`,
`i32::MIN >> 13`). -/
def chronoMinYear : Int := -262144

/-- Proleptic Gregorian leap year; chrono reduces the year with
`rem_euclid`, which is the Euclidean `%` on `Int`. -/
def isLeap (y : Int) : Bool :=
  (y % 4 == 0 && y % 100 != 0) || (y % 400 == 0)

/-- Days in a month of the proleptic Gregorian calendar. -/
def daysInMonth (y : Int) (m : Nat) : Nat :=
  if m = 2 then (if isLeap y then 29 else 28)
  else if m = 4 ∨ m = 6 ∨ m = 9 ∨ m = 11 then 30
  else 31

/-- Validity of a calendar date, as `NaiveDate::from_ymd_opt` checks it
(month and day ranges, plus chrono's year bounds). -/
def validYmd (y : Int) (m d : Nat) : Bool :=
  decide (chronoMinYear ≤ y) && decide (y ≤ chronoMaxYear) && decide (1 ≤ m)
    && decide (m ≤ 12) && decide (1 ≤ d) && decide (d ≤ daysInMonth y m)

/-- Day number of a calendar date relative to 1970-01-01
(days-from-civil). -/
def rataDie (y : Int) (m d : Nat) : Int :=
  let yi : Int := if m ≤ 2 then y - 1 else y
  let era : Int := Int.fdiv yi 400
  let yoe : Int := yi - era * 400
  let mp : Int := if m ≤ 2 then (m : Int) + 9 else (m : Int) - 3
  let doy : Int := Int.fdiv (153 * mp + 2) 5 + (d : Int) - 1
  let doe : Int := yoe * 365 + Int.fdiv yoe 4 - Int.fdiv yoe 100 + doy
  era * 146097 + doe - 719468

/-- The day number of `NaiveDate::MIN`. -/
def chronoMinDie : Int := rataDie chronoMinYear 1 1

/-- The cutoff
`today.checked_sub_days(Days::new(retention_days)).unwrap_or(today)`
(exporter.rs 126-128): plain day-number subtraction, falling back to
`today` itself exactly when the result would precede `NaiveDate::MIN`
(which also covers day counts beyond `i64`). -/
def cutoffDie (todayDie : Int) (retention : Nat) : Int :=
  if todayDie - (retention : Int) < chronoMinDie then todayDie
  else todayDie - (retention : Int)

/-- `str::strip_prefix` on character lists. -/
def dropPre : List Char → List Char → Option (List Char)
  | [], s => some s
  | _ :: _, [] => none
  | p :: ps, c :: cs => if p = c then dropPre ps cs else none

/-- `str::strip_suffix` on character lists. -/
def dropSuf (suf s : List Char) : Option (List Char) :=
  match dropPre suf.reverse s.reverse with
  | some r => some r.reverse
  | none => none

/-- A decimal digit character. -/
def isDig (c : Char) : Bool :=
  decide (48 ≤ c.toNat) && decide (c.toNat ≤ 57)

/-- Value of a decimal digit character. -/
def dVal (c : Char) : Nat :=
  c.toNat - 48

/-- The decimal digit character for `n < 10`. -/
def digitChar (n : Nat) : Char :=
  Char.ofNat (48 + n)

/-- The Unicode `White_Space` set, which `str::trim_start` removes:
chrono trims it before each numeric field. -/
def isWsChar (c : Char) : Bool :=
  (decide (9 ≤ c.toNat) && decide (c.toNat ≤ 13)) || c.toNat == 32 || c.toNat == 133
    || c.toNat == 160 || c.toNat == 5760
    || (decide (8192 ≤ c.toNat) && decide (c.toNat ≤ 8202)) || c.toNat == 8232
    || c.toNat == 8233 || c.toNat == 8239 || c.toNat == 8287 || c.toNat == 12288

/-- Value of a digit string, accumulated the way chrono's `scan::number`
does. -/
def digitsToNat (l : List Char) : Nat :=
  l.foldl (fun acc c => acc * 10 + dVal c) 0

/-- chrono's `scan::number(s, 1, maxw)`: consume greedily up to `maxw`
leading digits (at least one), returning the value and the rest of the
input. -/
def scanNum (maxw : Nat) (s : List Char) : Option (Nat × List Char) :=
  let digs := (s.takeWhile isDig).take maxw
  if digs.isEmpty then none
  else some (digitsToNat digs, s.drop digs.length)

/-- chrono's `scan::number(s, 1, usize::MAX)`: greedy digits with no
width cap (used after an explicit year sign). -/
def scanNumAll (s : List Char) : Option (Nat × List Char) :=
  let digs := s.takeWhile isDig
  if digs.isEmpty then none
  else some (digitsToNat digs, s.drop digs.length)

/-- The `%Y` field: an optional `-`/`+` sign with greedy digits, or one
to four digits when unsigned.  chrono's `i64`-overflow failure on
absurdly long digit strings is subsumed by the year-range check in
`validYmd`, which rejects the same inputs. -/
def scanYear (s : List Char) : Option (Int × List Char) :=
  match s with
  | [] => none
  | c :: rest =>
      if c = '-' then (scanNumAll rest).map (fun p => (-(p.1 : Int), p.2))
      else if c = '+' then (scanNumAll rest).map (fun p => ((p.1 : Int), p.2))
      else (scanNum 4 (c :: rest)).map (fun p => ((p.1 : Int), p.2))

/-- `NaiveDate::parse_from_str(s, "%Y-%m-%d")`: lenient numeric fields
separated by exact literal dashes, the whole input consumed, then
`Parsed::to_naive_date` validity. -/
def parseDate (s : List Char) : Option (Int × Nat × Nat) :=
  match scanYear (s.dropWhile isWsChar) with
  | none => none
  | some (y, s1) =>
      match s1 with
      | [] => none
      | c1 :: s2 =>
          if c1 = '-' then
            match scanNum 2 (s2.dropWhile isWsChar) with
            | none => none
            | some (mo, s3) =>
                match s3 with
                | [] => none
                | c2 :: s4 =>
                    if c2 = '-' then
                      match scanNum 2 (s4.dropWhile isWsChar) with
                      | none => none
                      | some (da, s5) =>
                          if s5.isEmpty then
                            if validYmd y mo da then some (y, mo, da) else none
                          else none
                    else none
          else none

/-- The per-file decision of `prune_old_log_files` (exporter.rs 130-159):
a directory entry named `name` is removed exactly when this returns
`true`.  `todayDie` is the day number of `now`'s UTC date. -/
def prune_deletes (retention : Nat) (todayDie : Int) (name : List Char) : Bool :=
  match dropPre "nobreak-".data name with
  | none => false
  | some rest =>
      match dropSuf ".jsonl".data rest with
      | none => false
      | some datePart =>
          match parseDate datePart with
          | none => false
          | some (y, m, d) => decide (rataDie y m d < cutoffDie todayDie retention)

/-- Zero-padded two-digit rendering. -/
def pad2 (n : Nat) : List Char :=
  [digitChar (n / 10 % 10), digitChar (n % 10)]

/-- Zero-padded four-digit rendering. -/
def pad4 (n : Nat) : List Char :=
  [digitChar (n / 1000 % 10), digitChar (n / 100 % 10), digitChar (n / 10 % 10), digitChar (n % 10)]

/-- The canonical log file name `nobreak-YYYY-MM-DD.jsonl` written by the
exporter (exporter.rs 58-62). -/
def mkLogName (y m d : Nat) : List Char :=
  "nobreak-".data ++ pad4 y ++ ['-'] ++ pad2 m ++ ['-'] ++ pad2 d ++ ".jsonl".data

/-! ## Theorems -/

/-- The 31-byte aligned frame of scenario S1: header `AA 21 00 0C`
followed by zero payload bytes and a zero checksum byte. -/
def zeroFrame : List Nat :=
  [0xAA, 0x21, 0x00, 0x0C] ++ List.replicate 27 0

/-- C4: the frame decoder is total: for every input byte string the view
has `header.actual_len` equal to the input length, `words_le` and
`words_be` have equal length, and `likely_metrics` carries the seven
estimate keys plus `mapping_confidence`; decoding the empty input yields
`actual_len = 0`, `declared_len = 0`, `frame_aligned = false`,
`words_le = []` and `mapping_confidence = "insufficient_frame_alignment"`. -/
theorem c4_decode_total (frame : List Nat) :
    (decode_raw_frame frame).header.actual_len = frame.length
    ∧ (decode_raw_frame frame).words_le.length = (decode_raw_frame frame).words_be.length
    ∧ (∀ k ∈ ["vInput_est", "vOutput_est", "vBattery_est", "fOutput_est",
        "cBattery_est", "pOutput_est", "temperature_est", "mapping_confidence"],
        k ∈ (decode_raw_frame frame).likely_metrics.map Prod.fst)
    ∧ (decode_raw_frame []).header.actual_len = 0
    ∧ (decode_raw_frame []).header.declared_len = 0
    ∧ frameAligned [] = false
    ∧ (decode_raw_frame []).words_le = []
    ∧ (decode_raw_frame []).likely_metrics.lookup "mapping_confidence"
        = some (.str "insufficient_frame_alignment") := by
  refine ⟨rfl, ?_, ?_, by decide, by decide, by decide, by decide, by decide⟩
  · simp only [decode_raw_frame, words_le, words_be]
    split <;> simp
  · intro k hk
    fin_cases hk <;> simp [decode_raw_frame, likelyMetrics]

/-- C5: for every input of length at least 31 whose first four bytes are
`AA 21 00 0C`, the decoder reports `frame_aligned = true`,
`mapping_confidence = "experimental"`, and the estimated metrics follow
the exact offset/scale formulas of the source; on `zeroFrame` every
estimate is zero and `length_match` is false (declared length `0x21 = 33`
differs from the actual 31). -/
theorem c5_decode_aligned (frame : List Nat)
    (hlen : 31 ≤ frame.length)
    (h0 : frame[0]? = some 0xAA) (h1 : frame[1]? = some 0x21)
    (h2 : frame[2]? = some 0x00) (h3 : frame[3]? = some 0x0C) :
    (frameAligned frame = true
      ∧ (decode_raw_frame frame).likely_metrics.lookup "mapping_confidence"
          = some (.str "experimental")
      ∧ vInput_est frame = some ((256 * frame.getD 11 0 + frame.getD 12 0 : ℚ) / 504)
      ∧ vOutput_est frame = some ((256 * frame.getD 23 0 + frame.getD 24 0 : ℚ) / 366)
      ∧ vBattery_est frame = some ((256 * frame.getD 20 0 + frame.getD 21 0 : ℚ) / 1249)
      ∧ fOutput_est frame = some ((256 * frame.getD 27 0 + frame.getD 28 0 : ℚ) / (387 / 5))
      ∧ cBattery_est frame = some (frame.getD 26 0 : ℚ)
      ∧ pOutput_est frame = some (frame.getD 27 0 : ℚ)
      ∧ temperature_est frame = some (frame.getD 15 0 : ℚ))
    ∧ (vInput_est zeroFrame = some 0
      ∧ vOutput_est zeroFrame = some 0
      ∧ vBattery_est zeroFrame = some 0
      ∧ fOutput_est zeroFrame = some 0
      ∧ cBattery_est zeroFrame = some 0
      ∧ pOutput_est zeroFrame = some 0
      ∧ temperature_est zeroFrame = some 0
      ∧ (decode_raw_frame zeroFrame).header.length_match = false) := by
  have haligned : frameAligned frame = true := by
    simp [frameAligned, h0, h1, h2, h3, hlen]
  have hgetElem : ∀ i : Nat, i < frame.length → frame[i]? = some (frame.getD i 0) := by
    intro i hi
    rw [List.getElem?_eq_getElem hi]
    simp [List.getD_eq_getElem?_getD, List.getElem?_eq_getElem hi]
  have hz : frameAligned zeroFrame = true := by decide
  have hz11 : u16_be zeroFrame 11 = some 0 := by decide
  have hz23 : u16_be zeroFrame 23 = some 0 := by decide
  have hz20 : u16_be zeroFrame 20 = some 0 := by decide
  have hz27 : u16_be zeroFrame 27 = some 0 := by decide
  have hg26 : (zeroFrame[26]? : Option Nat) = some 0 := by decide
  have hg27 : (zeroFrame[27]? : Option Nat) = some 0 := by decide
  have hg15 : (zeroFrame[15]? : Option Nat) = some 0 := by decide
  refine ⟨⟨haligned, ?_, ?_, ?_, ?_, ?_, ?_, ?_, ?_⟩,
    ?_, ?_, ?_, ?_, ?_, ?_, ?_, by decide⟩
  · simp [decode_raw_frame, likelyMetrics, haligned, List.lookup]
  · simp only [vInput_est, haligned, if_true, u16_be]
    rw [if_neg (by omega)]
    push_cast
    simp
  · simp only [vOutput_est, haligned, if_true, u16_be]
    rw [if_neg (by omega)]
    push_cast
    simp
  · simp only [vBattery_est, haligned, if_true, u16_be]
    rw [if_neg (by omega)]
    push_cast
    simp
  · simp only [fOutput_est, haligned, if_true, u16_be]
    rw [if_neg (by omega)]
    push_cast
    simp
  · simp only [cBattery_est, haligned, if_true]
    rw [hgetElem 26 (by omega)]
    simp
  · simp only [pOutput_est, haligned, if_true]
    rw [hgetElem 27 (by omega)]
    simp
  · simp only [temperature_est, haligned, if_true]
    rw [hgetElem 15 (by omega)]
    simp
  · simp [vInput_est, hz, hz11]
  · simp [vOutput_est, hz, hz23]
  · simp [vBattery_est, hz, hz20]
  · simp [fOutput_est, hz, hz27]
  · simp [cBattery_est, hz, hg26]
  · simp [pOutput_est, hz, hg27]
  · simp [temperature_est, hz, hg15]

/-- Witness for C5: the hypotheses are discharged at the concrete
`zeroFrame` and the alignment conclusion evaluates there. -/
theorem c5_decode_aligned_witness :
    frameAligned zeroFrame = true
    ∧ vInput_est zeroFrame = some ((256 * zeroFrame.getD 11 0 + zeroFrame.getD 12 0 : ℚ) / 504) :=
  ⟨(c5_decode_aligned zeroFrame (by decide) (by decide) (by decide) (by decide)
      (by decide)).1.1,
   (c5_decode_aligned zeroFrame (by decide) (by decide) (by decide) (by decide)
      (by decide)).1.2.2.1⟩

/-- C10: `connect` is not atomic on failure: with a non-empty scan whose
chosen device is CDC, a port-open failure returns the `Io` error while
the previously stored device is left in place (`is_connected` and
`current_device` still report it) and the old serial handle is already
closed; the stored device is cleared (only) when the scan comes back
empty. -/
theorem c10_connect_not_atomic (st : DriverState) (preferred : Option String)
    (d0 : DeviceInfo) (rest : List DeviceInfo) (msg : String)
    (hcdc : (chooseDevice d0 rest preferred).transport = "cdc") :
    (vendorConnect st preferred (.ok (d0 :: rest)) (.err msg)).2
        = .inr (openPortError (chooseDevice d0 rest preferred).path msg)
    ∧ (vendorConnect st preferred (.ok (d0 :: rest)) (.err msg)).1.connected = st.connected
    ∧ vendorIsConnected (vendorConnect st preferred (.ok (d0 :: rest)) (.err msg)).1
        = vendorIsConnected st
    ∧ vendorCurrentDevice (vendorConnect st preferred (.ok (d0 :: rest)) (.err msg)).1
        = vendorCurrentDevice st
    ∧ (vendorConnect st preferred (.ok (d0 :: rest)) (.err msg)).1.cdc_port = none
    ∧ (∀ openRes, (vendorConnect st preferred (.ok []) openRes).1.connected = none) := by
  refine ⟨?_, ?_, ?_, ?_, ?_, ?_⟩ <;>
    simp [vendorConnect, hcdc, vendorIsConnected, vendorCurrentDevice]

/-- Witness for C10 at a concrete driver state holding an old device. -/
theorem c10_connect_not_atomic_witness :
    (chooseDevice
        { id := "cdc:/dev/ttyACM1", model := "RagTech 3200VA", transport := "cdc",
          path := "/dev/ttyACM1", vid := "04d8", pid := "000a" } [] none).transport = "cdc"
    ∧ (vendorConnect
        { connected := some
            { id := "cdc:/dev/ttyACM0", model := "RagTech 3200VA", transport := "cdc",
              path := "/dev/ttyACM0", vid := "04d8", pid := "000a" },
          cdc_port := some 7 }
        none
        (.ok [{ id := "cdc:/dev/ttyACM1", model := "RagTech 3200VA", transport := "cdc",
                path := "/dev/ttyACM1", vid := "04d8", pid := "000a" }])
        (.err "EBUSY")).1.connected
      = some
          { id := "cdc:/dev/ttyACM0", model := "RagTech 3200VA", transport := "cdc",
            path := "/dev/ttyACM0", vid := "04d8", pid := "000a" } := by
  refine ⟨by decide, ?_⟩
  exact (c10_connect_not_atomic
    { connected := some
        { id := "cdc:/dev/ttyACM0", model := "RagTech 3200VA", transport := "cdc",
          path := "/dev/ttyACM0", vid := "04d8", pid := "000a" },
      cdc_port := some 7 }
    none
    { id := "cdc:/dev/ttyACM1", model := "RagTech 3200VA", transport := "cdc",
      path := "/dev/ttyACM1", vid := "04d8", pid := "000a" }
    [] "EBUSY" (by decide)).2.1

/-- C1: the read phase of `tick` never lets a driver failure escape: a
driver read error becomes a snapshot whose `status.failures` is exactly
`[err.to_string()]` with `rtt_ms` the observed elapsed milliseconds, and
an elapsed poll timeout becomes a snapshot with `failures = ["timeout"]`
and `rtt_ms = poll_timeout` (the returned value is always a `Snapshot`:
`tick` is a total function into `MonState × Snapshot`). -/
theorem c1_tick_never_fails (config : MonitorConfig) (m : MonState) (obs : TickObs)
    (hconn : m.driverConnected = true) :
    (∀ e, obs.read = .err e →
      (tick config m obs).2.status.failures = [errString e]
      ∧ (tick config m obs).2.freshness.rtt_ms = obs.elapsed)
    ∧ (obs.read = .timeout →
      (tick config m obs).2.status.failures = ["timeout"]
      ∧ (tick config m obs).2.freshness.rtt_ms = config.poll_timeout) := by
  constructor
  · intro e hread
    simp only [tick, hconn, if_true, tickRead, hread]
    split <;> split <;> simp [disconnected_snapshot]
  · intro hread
    simp only [tick, hconn, if_true, tickRead, hread]
    split <;> split <;> simp [disconnected_snapshot]

/-- Witness for C1 at a concrete connected monitor and an Io read error. -/
theorem c1_tick_never_fails_witness :
    (tick
      { sample_interval := 1000, sample_interval_min := 1000, sample_interval_max := 3000,
        stale_after := 2500, disconnected_after := 5000, poll_timeout := 700,
        error_threshold := 3, auto_tune := true }
      { mkMonitor
          { sample_interval := 1000, sample_interval_min := 1000, sample_interval_max := 3000,
            stale_after := 2500, disconnected_after := 5000, poll_timeout := 700,
            error_threshold := 3, auto_tune := true } none with driverConnected := true }
      { connect := .err .deviceNotFound, read := .err (.io "x"), elapsed := 42,
        mono := 5, ageSinceOk := 0 }).2.status.failures = ["io error: x"] :=
  ((c1_tick_never_fails _ _ _ rfl).1 (.io "x") rfl).1

/-- C2: snapshot invariants, for any monitor state and any per-tick driver
outcome whose successful read results carry the status codes the
repository's driver produces (`"ONLINE_RAW"` or `"UNKNOWN"`,
driver.rs lines 496-507): `connected = true` implies
`status.code ≠ "DISCONNECTED"`, `stale = false` and `age_ms = 0`;
`connected = false` implies `status.code = "DISCONNECTED"` and a
non-empty failure list. -/
theorem c2_snapshot_invariants (config : MonitorConfig) (m : MonState) (obs : TickObs)
    (hvendor : ∀ r, obs.read = .ok r →
      r.status_code = "ONLINE_RAW" ∨ r.status_code = "UNKNOWN") :
    ((tick config m obs).2.device.connected = true →
      (tick config m obs).2.status.code ≠ "DISCONNECTED"
      ∧ (tick config m obs).2.freshness.stale = false
      ∧ (tick config m obs).2.freshness.age_ms = 0)
    ∧ ((tick config m obs).2.device.connected = false →
      (tick config m obs).2.status.code = "DISCONNECTED"
      ∧ (tick config m obs).2.status.failures ≠ []) := by
  have hread : ∀ m' : MonState,
      ((tickRead config m' obs).2.device.connected = true →
        (tickRead config m' obs).2.status.code ≠ "DISCONNECTED"
        ∧ (tickRead config m' obs).2.freshness.stale = false
        ∧ (tickRead config m' obs).2.freshness.age_ms = 0)
      ∧ ((tickRead config m' obs).2.device.connected = false →
        (tickRead config m' obs).2.status.code = "DISCONNECTED"
        ∧ (tickRead config m' obs).2.status.failures ≠ []) := by
    intro m'
    cases hro : obs.read with
    | ok r =>
        rcases hvendor r hro with hsc | hsc <;>
          simp [tickRead, hro, connected_snapshot, snapshot_device, hsc]
    | err e =>
        constructor
        · intro hdev
          exfalso
          revert hdev
          simp only [tickRead, hro]
          split <;> simp [disconnected_snapshot, snapshot_device]
        · intro _
          simp only [tickRead, hro]
          split <;> simp [disconnected_snapshot]
    | timeout =>
        constructor
        · intro hdev
          exfalso
          revert hdev
          simp only [tickRead, hro]
          split <;> simp [disconnected_snapshot, snapshot_device]
        · intro _
          simp only [tickRead, hro]
          split <;> simp [disconnected_snapshot]
  by_cases hconn : m.driverConnected
  · simpa [tick, hconn] using hread m
  · simp only [tick, hconn, if_false, Bool.false_eq_true]
    cases hco : obs.connect with
    | ok d => exact hread _
    | err e => simp [disconnected_snapshot, snapshot_device]

/-- Witness for C2 at a concrete successful `ONLINE_RAW` read. -/
theorem c2_snapshot_invariants_witness :
    (tick
      { sample_interval := 1000, sample_interval_min := 1000, sample_interval_max := 3000,
        stale_after := 2500, disconnected_after := 5000, poll_timeout := 700,
        error_threshold := 3, auto_tune := true }
      { mkMonitor
          { sample_interval := 1000, sample_interval_min := 1000, sample_interval_max := 3000,
            stale_after := 2500, disconnected_after := 5000, poll_timeout := 700,
            error_threshold := 3, auto_tune := true } none with driverConnected := true }
      { connect := .err .deviceNotFound,
        read := .ok { status_code := "ONLINE_RAW", failures := [], vars := [] },
        elapsed := 42, mono := 5, ageSinceOk := 0 }).2.freshness.age_ms = 0 :=
  ((c2_snapshot_invariants _ _ _
      (by intro r hr; injection hr with h; subst h; left; rfl)).1
    (by decide)).2.2

/-- A tick observation on which the timeout-wrapped read fails: either a
driver error or an elapsed poll timeout. -/
def isReadFailure (obs : TickObs) : Prop :=
  (∃ e, obs.read = ReadOutcome.err e) ∨ obs.read = ReadOutcome.timeout

/-- The `effective_interval` produced by the failure arms of the read
phase (auto-tune with `ok = false` when enabled). -/
def failEff (config : MonitorConfig) (m : MonState) : Nat :=
  if config.auto_tune then
    tune_interval config m.effective_interval m.reads_ok config.poll_timeout false
  else m.effective_interval

/-- The `effective_interval` produced by the success arm of the read
phase (auto-tune with `ok = true` when enabled, after `reads_ok` was
incremented). -/
def okEff (config : MonitorConfig) (m : MonState) (rtt : Nat) : Nat :=
  if config.auto_tune then
    tune_interval config m.effective_interval (m.reads_ok + 1) rtt true
  else m.effective_interval

/-- State characterization of the two failure arms of the read phase. -/
lemma tickRead_fail_eq (config : MonitorConfig) (m : MonState) (obs : TickObs)
    (hfail : isReadFailure obs) :
    (tickRead config m obs).1 =
      if config.error_threshold ≤ m.errors_in_row + 1 then
        { m with
          state := .Reconnecting
          errors_in_row := m.errors_in_row + 1
          reads_err := m.reads_err + 1
          effective_interval := failEff config m
          driverConnected := false
          disconnectCalls := m.disconnectCalls + 1
          reconnects := m.reconnects + 1
          current := none }
      else
        { m with
          state := .Degraded
          errors_in_row := m.errors_in_row + 1
          reads_err := m.reads_err + 1
          effective_interval := failEff config m } := by
  obtain ⟨e, he⟩ | he := hfail <;>
    · simp only [tickRead, he]
      by_cases ha : config.auto_tune <;>
        by_cases ht : config.error_threshold ≤ m.errors_in_row + 1 <;>
          simp [ha, ht, ge_iff_le, failEff]

/-- Same characterization lifted through `tick` for a connected driver. -/
lemma tick_fail_eq (config : MonitorConfig) (m : MonState) (obs : TickObs)
    (hconn : m.driverConnected = true) (hfail : isReadFailure obs) :
    (tick config m obs).1 =
      if config.error_threshold ≤ m.errors_in_row + 1 then
        { m with
          state := .Reconnecting
          errors_in_row := m.errors_in_row + 1
          reads_err := m.reads_err + 1
          effective_interval := failEff config m
          driverConnected := false
          disconnectCalls := m.disconnectCalls + 1
          reconnects := m.reconnects + 1
          current := none }
      else
        { m with
          state := .Degraded
          errors_in_row := m.errors_in_row + 1
          reads_err := m.reads_err + 1
          effective_interval := failEff config m } := by
  rw [show tick config m obs = tickRead config m obs by simp [tick, hconn]]
  exact tickRead_fail_eq config m obs hfail

/-- State characterization of the success arm of the read phase. -/
lemma tickRead_ok_eq (config : MonitorConfig) (m : MonState) (obs : TickObs)
    (r : ReadResult) (hro : obs.read = .ok r) :
    (tickRead config m obs).1 =
      { m with
        reads_ok := m.reads_ok + 1
        errors_in_row := 0
        lastOk := true
        state := .Streaming
        effective_interval := okEff config m obs.elapsed } := by
  simp only [tickRead, hro]
  by_cases ha : config.auto_tune <;> simp [ha, okEff]

/-- `tickRead` never issues a `connect` call. -/
lemma tickRead_connectCalls (config : MonitorConfig) (m : MonState) (obs : TickObs) :
    (tickRead config m obs).1.connectCalls = m.connectCalls := by
  cases hro : obs.read with
  | ok r => rw [tickRead_ok_eq config m obs r hro]
  | err e => rw [tickRead_fail_eq config m obs (Or.inl ⟨e, hro⟩)]; split <;> rfl
  | timeout => rw [tickRead_fail_eq config m obs (Or.inr hro)]; split <;> rfl

/-- A tick that starts with a disconnected driver issues exactly one
`connect` call. -/
lemma tick_notconn_connectCalls (config : MonitorConfig) (m : MonState) (obs : TickObs)
    (hconn : m.driverConnected = false) :
    (tick config m obs).1.connectCalls = m.connectCalls + 1 := by
  cases hco : obs.connect with
  | ok d =>
      simp only [tick, hconn, Bool.false_eq_true, if_false, hco]
      rw [tickRead_connectCalls]
  | err e => simp [tick, hconn, hco]

/-- Run lemma: a streak of read errors strictly below the threshold keeps
the driver attached, fires no disconnect, and advances `errors_in_row`
and `reads_err` by the streak length, ending `Degraded`. -/
lemma run_err_nofire (config : MonitorConfig) (obss : List TickObs) :
    ∀ m : MonState, m.driverConnected = true →
      (∀ o ∈ obss, ∃ e, o.read = ReadOutcome.err e) →
      m.errors_in_row + obss.length < config.error_threshold →
      (runTicks config m obss).errors_in_row = m.errors_in_row + obss.length
      ∧ (runTicks config m obss).driverConnected = true
      ∧ (runTicks config m obss).reconnects = m.reconnects
      ∧ (runTicks config m obss).disconnectCalls = m.disconnectCalls
      ∧ (runTicks config m obss).connectCalls = m.connectCalls
      ∧ (runTicks config m obss).reads_err = m.reads_err + obss.length
      ∧ (runTicks config m obss).state = (if obss = [] then m.state else .Degraded) := by
  induction obss with
  | nil => intro m hconn _ _; simp [runTicks, hconn]
  | cons o os ih =>
      intro m hconn hall hlt
      obtain ⟨e, he⟩ := hall o (List.mem_cons_self o os)
      have hstep := tick_fail_eq config m o hconn (Or.inl ⟨e, he⟩)
      rw [if_neg (by simp at hlt; omega)] at hstep
      have hrun : runTicks config m (o :: os) = runTicks config (tick config m o).1 os := rfl
      rw [hrun, hstep]
      have := ih
        { m with
          state := .Degraded
          errors_in_row := m.errors_in_row + 1
          reads_err := m.reads_err + 1
          effective_interval := failEff config m }
        (by simp [hconn]) (fun o2 ho2 => hall o2 (List.mem_cons_of_mem o ho2))
        (by simp at hlt ⊢; omega)
      obtain ⟨h1, h2, h3, h4, h5, h6, h7⟩ := this
      refine ⟨by rw [h1]; simp; omega, h2, h3, h4, h5, by rw [h6]; simp; omega, ?_⟩
      rw [h7]
      split <;> simp

/-- C3: with `error_threshold = k ≥ 1`, starting connected with a clean
error streak, `k` consecutive read-error ticks increment `reconnects`
exactly once (on the k-th tick), issue exactly one driver `disconnect`
during the streak, leave the earlier failing ticks `Degraded` and the
k-th `Reconnecting`, and the next tick issues a `connect` attempt. -/
theorem c3_error_streak_reconnect (config : MonitorConfig) (m0 : MonState)
    (obss : List TickObs)
    (hk : 1 ≤ config.error_threshold)
    (hconn : m0.driverConnected = true)
    (herr0 : m0.errors_in_row = 0)
    (hlen : obss.length = config.error_threshold)
    (hall : ∀ o ∈ obss, ∃ e, o.read = ReadOutcome.err e) :
    (runTicks config m0 obss).reconnects = m0.reconnects + 1
    ∧ (runTicks config m0 obss).disconnectCalls = m0.disconnectCalls + 1
    ∧ (runTicks config m0 obss).state = .Reconnecting
    ∧ (runTicks config m0 obss).driverConnected = false
    ∧ (∀ j, 1 ≤ j → j < obss.length →
        (runTicks config m0 (obss.take j)).state = .Degraded
        ∧ (runTicks config m0 (obss.take j)).reconnects = m0.reconnects
        ∧ (runTicks config m0 (obss.take j)).disconnectCalls = m0.disconnectCalls)
    ∧ (∀ obs2, (tick config (runTicks config m0 obss) obs2).1.connectCalls
        = (runTicks config m0 obss).connectCalls + 1) := by
  have hne : obss ≠ [] := by
    intro h
    rw [h] at hlen
    simp at hlen
    omega
  have hsplit : obss.dropLast ++ [obss.getLast hne] = obss :=
    List.dropLast_append_getLast hne
  have hlenDrop : obss.dropLast.length = config.error_threshold - 1 := by
    have := List.length_dropLast obss
    omega
  have hpre := run_err_nofire config obss.dropLast m0 hconn
    (fun o ho => hall o (List.dropLast_subset obss ho))
    (by omega)
  obtain ⟨p1, p2, p3, p4, p5, p6, p7⟩ := hpre
  have hlast : ∃ e, (obss.getLast hne).read = ReadOutcome.err e :=
    hall _ (List.getLast_mem hne)
  have hfire := tick_fail_eq config (runTicks config m0 obss.dropLast)
    (obss.getLast hne) p2 (Or.inl hlast)
  rw [if_pos (by omega)] at hfire
  have hrun : runTicks config m0 obss
      = (tick config (runTicks config m0 obss.dropLast) (obss.getLast hne)).1 := by
    conv_lhs => rw [← hsplit]
    rw [runTicks, List.foldl_append]
    rfl
  rw [hrun, hfire]
  refine ⟨by simp [p3], by simp [p4], by simp, by simp, ?_, ?_⟩
  · intro j hj1 hj2
    have htake := run_err_nofire config (obss.take j) m0 hconn
      (fun o ho => hall o (List.take_subset j obss ho))
      (by rw [List.length_take]; omega)
    obtain ⟨t1, t2, t3, t4, t5, t6, t7⟩ := htake
    refine ⟨?_, t3, t4⟩
    rw [t7, if_neg]
    intro h
    have := congrArg List.length h
    simp only [List.length_take, List.length_nil] at this
    omega
  · intro obs2
    exact tick_notconn_connectCalls config _ obs2 (by simp)

/-- The S4 monitor configuration: 1000 ms sample interval, 3000 ms cap. -/
def cfgS4 : MonitorConfig :=
  { sample_interval := 1000, sample_interval_min := 1000, sample_interval_max := 3000,
    stale_after := 2500, disconnected_after := 5000, poll_timeout := 700,
    error_threshold := 3, auto_tune := true }

/-- A monitor over `cfgS4` whose mock driver is attached. -/
def mS4 : MonState :=
  { mkMonitor cfgS4 none with driverConnected := true }

/-- A tick observation whose read fails with an Io error. -/
def obsFail : TickObs :=
  { connect := .err .deviceNotFound, read := .err (.io "x"), elapsed := 50,
    mono := 1, ageSinceOk := 100 }

/-- Witness for C3: threshold 3, three consecutive Io-failing ticks. -/
theorem c3_error_streak_reconnect_witness :
    (runTicks cfgS4 mS4 [obsFail, obsFail, obsFail]).reconnects = 1
    ∧ (runTicks cfgS4 mS4 [obsFail, obsFail, obsFail]).state = .Reconnecting := by
  have h := c3_error_streak_reconnect cfgS4 mS4 [obsFail, obsFail, obsFail]
    (by decide) (by decide) (by decide) (by decide)
    (by intro o ho; fin_cases ho <;> exact ⟨.io "x", rfl⟩)
  exact ⟨by rw [h.1]; rfl, h.2.2.1⟩

/-- C9: `errors_in_row` is reset to zero exactly by a successful read —
never by the reconnect threshold firing — so once the streak has reached
`error_threshold`, any later tick that reaches the read and fails again
(e.g. after a successful reconnect) fires the threshold immediately:
`disconnect` is issued and `reconnects` increments on that very tick. -/
theorem c9_errors_reset_only_on_success (config : MonitorConfig) (m : MonState)
    (obs : TickObs) :
    ((tick config m obs).1.errors_in_row = 0 ↔
      ((m.driverConnected = true ∨ ∃ d, obs.connect = .ok d) ∧ ∃ r, obs.read = .ok r))
    ∧ (config.error_threshold ≤ m.errors_in_row →
        (m.driverConnected = true ∨ ∃ d, obs.connect = .ok d) →
        isReadFailure obs →
        (tick config m obs).1.reconnects = m.reconnects + 1
        ∧ (tick config m obs).1.disconnectCalls = m.disconnectCalls + 1
        ∧ (tick config m obs).1.state = .Reconnecting
        ∧ (tick config m obs).1.errors_in_row = m.errors_in_row + 1) := by
  constructor
  · by_cases hconn : m.driverConnected
    · have hTick : tick config m obs = tickRead config m obs := by simp [tick, hconn]
      rw [hTick]
      cases hro : obs.read with
      | ok r =>
          rw [tickRead_ok_eq config m obs r hro]
          constructor
          · intro _; exact ⟨Or.inl hconn, r, rfl⟩
          · intro _; rfl
      | err e =>
          rw [tickRead_fail_eq config m obs (Or.inl ⟨e, hro⟩)]
          constructor
          · intro h; exfalso; revert h; split <;> simp
          · rintro ⟨-, r, hr⟩; simp at hr
      | timeout =>
          rw [tickRead_fail_eq config m obs (Or.inr hro)]
          constructor
          · intro h; exfalso; revert h; split <;> simp
          · rintro ⟨-, r, hr⟩; simp at hr
    · have hconn' : m.driverConnected = false := by simpa using hconn
      cases hco : obs.connect with
      | ok d =>
          have hTick : (tick config m obs).1
              = (tickRead config
                  { m with
                    connectCalls := m.connectCalls + 1
                    driverConnected := true
                    current := some d
                    state := .Streaming } obs).1 := by
            simp [tick, hconn', hco]
          rw [hTick]
          cases hro : obs.read with
          | ok r =>
              rw [tickRead_ok_eq config _ obs r hro]
              constructor
              · intro _; exact ⟨Or.inr ⟨d, rfl⟩, r, rfl⟩
              · intro _; rfl
          | err e =>
              rw [tickRead_fail_eq config _ obs (Or.inl ⟨e, hro⟩)]
              constructor
              · intro h; exfalso; revert h; split <;> simp
              · rintro ⟨-, r, hr⟩; simp at hr
          | timeout =>
              rw [tickRead_fail_eq config _ obs (Or.inr hro)]
              constructor
              · intro h; exfalso; revert h; split <;> simp
              · rintro ⟨-, r, hr⟩; simp at hr
      | err e =>
          constructor
          · intro h; exfalso; revert h; simp [tick, hconn', hco]
          · rintro ⟨hl | ⟨d, hd⟩, -⟩
            · simp [hconn'] at hl
            · simp at hd
  · intro hth hreach hfail
    rcases hreach with hconn | ⟨d, hco⟩
    · rw [tick_fail_eq config m obs hconn hfail, if_pos (by omega)]
      exact ⟨rfl, rfl, rfl, rfl⟩
    · by_cases hconn : m.driverConnected
      · rw [tick_fail_eq config m obs hconn hfail, if_pos (by omega)]
        exact ⟨rfl, rfl, rfl, rfl⟩
      · have hconn' : m.driverConnected = false := by simpa using hconn
        have hTick : (tick config m obs).1
            = (tickRead config
                { m with
                  connectCalls := m.connectCalls + 1
                  driverConnected := true
                  current := some d
                  state := .Streaming } obs).1 := by
          simp [tick, hconn', hco]
        rw [hTick, tickRead_fail_eq config _ obs hfail]
        rw [if_pos (by simp; omega)]
        exact ⟨rfl, rfl, rfl, rfl⟩

/-- A CDC device as the enumerator reports it. -/
def devACM0 : DeviceInfo :=
  { id := "cdc:/dev/ttyACM0", model := "RagTech 3200VA", transport := "cdc",
    path := "/dev/ttyACM0", vid := "04d8", pid := "000a" }

/-- A monitor whose error streak already reached the threshold and whose
driver is detached (as after a fired reconnect). -/
def mC9 : MonState :=
  { mS4 with errors_in_row := 3, driverConnected := false }

/-- A tick observation with a successful reconnect and a failing read. -/
def obsC9 : TickObs :=
  { obsFail with connect := .ok devACM0 }

/-- Witness for C9: a monitor whose streak already reached the threshold,
reconnect succeeded, and the next read fails: the threshold fires at
once. -/
theorem c9_errors_reset_only_on_success_witness :
    (tick cfgS4 mC9 obsC9).1.reconnects = 1 := by
  have h := (c9_errors_reset_only_on_success cfgS4 mC9 obsC9).2
    (by decide) (Or.inr ⟨devACM0, rfl⟩) (Or.inl ⟨.io "x", rfl⟩)
  rw [h.1]
  rfl

/-- C6: with auto-tune enabled, every failed tick sets
`effective_interval` to `min(effective_interval + 250 ms,
sample_interval_max)`; the result never exceeds the cap, and whenever the
interval is at or below the cap (as it is after any failed tick) the
update is non-decreasing; with `sample_interval = 1000 ms` and
`sample_interval_max = 3000 ms`, two consecutive failures yield
`effective_interval = 1500 ms`. -/
theorem c6_autotune_failure_step (config : MonitorConfig) (m : MonState) (obs : TickObs)
    (hauto : config.auto_tune = true)
    (hconn : m.driverConnected = true)
    (hfail : isReadFailure obs) :
    ((tick config m obs).1.effective_interval
        = min (m.effective_interval + 250) config.sample_interval_max
      ∧ (tick config m obs).1.effective_interval ≤ config.sample_interval_max
      ∧ (m.effective_interval ≤ config.sample_interval_max →
          m.effective_interval ≤ (tick config m obs).1.effective_interval))
    ∧ (runTicks cfgS4 mS4 [obsFail, obsFail]).effective_interval = 1500 := by
  have heff : (tick config m obs).1.effective_interval
      = min (m.effective_interval + 250) config.sample_interval_max := by
    rw [tick_fail_eq config m obs hconn hfail]
    split <;> simp [failEff, hauto, tune_interval]
  refine ⟨⟨heff, ?_, ?_⟩, by decide⟩
  · rw [heff]; omega
  · intro hle; rw [heff]; omega

/-- Witness for C6 at the S4 configuration with one failing tick. -/
theorem c6_autotune_failure_step_witness :
    (tick cfgS4 mS4 obsFail).1.effective_interval
      = min (mS4.effective_interval + 250) cfgS4.sample_interval_max := by
  exact (c6_autotune_failure_step cfgS4 mS4 obsFail rfl rfl
    (Or.inl ⟨.io "x", rfl⟩)).1.1

/-- `tune_interval` keeps the interval inside
`[sample_interval_min, sample_interval_max]` whatever branch fires. -/
lemma tune_interval_bounds (config : MonitorConfig) (eff reads_ok rtt : Nat) (ok : Bool)
    (hmm : config.sample_interval_min ≤ config.sample_interval_max)
    (hlo : config.sample_interval_min ≤ eff)
    (hhi : eff ≤ config.sample_interval_max) :
    config.sample_interval_min ≤ tune_interval config eff reads_ok rtt ok
    ∧ tune_interval config eff reads_ok rtt ok ≤ config.sample_interval_max := by
  unfold tune_interval
  split_ifs <;> constructor <;> omega

/-- The interval after one tick is either unchanged or produced by
`tune_interval` from the previous interval. -/
lemma tick_eff_cases (config : MonitorConfig) (m : MonState) (obs : TickObs) :
    (tick config m obs).1.effective_interval = m.effective_interval
    ∨ ∃ ro rtt ok, (tick config m obs).1.effective_interval
        = tune_interval config m.effective_interval ro rtt ok := by
  have hread : ∀ m' : MonState, m'.effective_interval = m.effective_interval →
      (tickRead config m' obs).1.effective_interval = m.effective_interval
      ∨ ∃ ro rtt ok, (tickRead config m' obs).1.effective_interval
          = tune_interval config m.effective_interval ro rtt ok := by
    intro m' he
    cases hro : obs.read with
    | ok r =>
        rw [tickRead_ok_eq config m' obs r hro]
        simp only [okEff, he]
        split
        · exact Or.inr ⟨m'.reads_ok + 1, obs.elapsed, true, rfl⟩
        · exact Or.inl rfl
    | err e =>
        rw [tickRead_fail_eq config m' obs (Or.inl ⟨e, hro⟩)]
        have : failEff config m' = m.effective_interval
            ∨ ∃ ro rtt ok, failEff config m'
                = tune_interval config m.effective_interval ro rtt ok := by
          simp only [failEff, he]
          split
          · exact Or.inr ⟨m'.reads_ok, config.poll_timeout, false, rfl⟩
          · exact Or.inl rfl
        split <;> simpa using this
    | timeout =>
        rw [tickRead_fail_eq config m' obs (Or.inr hro)]
        have : failEff config m' = m.effective_interval
            ∨ ∃ ro rtt ok, failEff config m'
                = tune_interval config m.effective_interval ro rtt ok := by
          simp only [failEff, he]
          split
          · exact Or.inr ⟨m'.reads_ok, config.poll_timeout, false, rfl⟩
          · exact Or.inl rfl
        split <;> simpa using this
  by_cases hconn : m.driverConnected
  · have : tick config m obs = tickRead config m obs := by simp [tick, hconn]
    rw [this]
    exact hread m rfl
  · have hconn' : m.driverConnected = false := by simpa using hconn
    cases hco : obs.connect with
    | ok d =>
        have : (tick config m obs).1
            = (tickRead config
                { m with
                  connectCalls := m.connectCalls + 1
                  driverConnected := true
                  current := some d
                  state := .Streaming } obs).1 := by
          simp [tick, hconn', hco]
        rw [this]
        exact hread _ rfl
    | err e =>
        left
        simp [tick, hconn', hco]

/-- The bounds invariant is preserved by every tick and hence by every
run of ticks. -/
lemma run_interval_bounds (config : MonitorConfig) (obss : List TickObs) :
    ∀ m : MonState,
      config.sample_interval_min ≤ config.sample_interval_max →
      config.sample_interval_min ≤ m.effective_interval →
      m.effective_interval ≤ config.sample_interval_max →
      config.sample_interval_min ≤ (runTicks config m obss).effective_interval
      ∧ (runTicks config m obss).effective_interval ≤ config.sample_interval_max := by
  induction obss with
  | nil => intro m _ hlo hhi; exact ⟨hlo, hhi⟩
  | cons o os ih =>
      intro m hmm hlo hhi
      have hstep : config.sample_interval_min ≤ (tick config m o).1.effective_interval
          ∧ (tick config m o).1.effective_interval ≤ config.sample_interval_max := by
        rcases tick_eff_cases config m o with heq | ⟨ro, rtt, ok, heq⟩
        · rw [heq]; exact ⟨hlo, hhi⟩
        · rw [heq]; exact tune_interval_bounds config _ ro rtt ok hmm hlo hhi
      exact ih (tick config m o).1 hmm hstep.1 hstep.2

/-- C7 (amended): provided the configured `sample_interval` lies inside
`[sample_interval_min, sample_interval_max]`, the monitor is created with
`effective_interval = sample_interval` and the interval stays inside the
bounds across every sequence of ticks. -/
theorem c7_interval_bounds (config : MonitorConfig) (target : Option String)
    (obss : List TickObs)
    (hmin : config.sample_interval_min ≤ config.sample_interval)
    (hmax : config.sample_interval ≤ config.sample_interval_max) :
    (mkMonitor config target).effective_interval = config.sample_interval
    ∧ config.sample_interval_min
        ≤ (runTicks config (mkMonitor config target) obss).effective_interval
    ∧ (runTicks config (mkMonitor config target) obss).effective_interval
        ≤ config.sample_interval_max := by
  have := run_interval_bounds config obss (mkMonitor config target)
    (le_trans hmin hmax) (by simpa [mkMonitor] using hmin) (by simpa [mkMonitor] using hmax)
  exact ⟨rfl, this.1, this.2⟩

/-- Witness for C7 (amended) at the S4 configuration with one failing
tick. -/
theorem c7_interval_bounds_witness :
    cfgS4.sample_interval_min
      ≤ (runTicks cfgS4 (mkMonitor cfgS4 none) [obsFail]).effective_interval :=
  (c7_interval_bounds cfgS4 none [obsFail] (by decide) (by decide)).2.1

/-- A configuration the CLI can produce (`--interval-ms 100` with the
fixed 1–3 s clamp range of main.rs lines 89-98): `sample_interval`
below `sample_interval_min`. -/
def cfgBad : MonitorConfig :=
  { sample_interval := 100, sample_interval_min := 1000, sample_interval_max := 3000,
    stale_after := 2500, disconnected_after := 5000, poll_timeout := 700,
    error_threshold := 3, auto_tune := true }

/-- Counterexample to C7 as stated: `Monitor::new` performs no clamping,
so with `sample_interval = 100 ms` and `sample_interval_min = 1000 ms`
the initial `effective_interval` (which equals `sample_interval`) lies
outside `[sample_interval_min, sample_interval_max]`. -/
theorem c7_counterexample :
    (mkMonitor cfgBad none).effective_interval = cfgBad.sample_interval
    ∧ ¬ (cfgBad.sample_interval_min ≤ (mkMonitor cfgBad none).effective_interval) := by
  decide

lemma dropPre_append (p s : List Char) : dropPre p (p ++ s) = some s := by
  induction p with
  | nil => rfl
  | cons a as ih => simp [dropPre, ih]

lemma dropPre_eq_some {p s r : List Char} (h : dropPre p s = some r) : s = p ++ r := by
  induction p generalizing s with
  | nil =>
      simp only [dropPre, Option.some.injEq] at h
      simp [h]
  | cons a as ih =>
      cases s with
      | nil => simp [dropPre] at h
      | cons c cs =>
          simp only [dropPre] at h
          split at h
          · next hac => simpa [hac] using ih h
          · simp at h

lemma dropSuf_append (suf s : List Char) : dropSuf suf (s ++ suf) = some s := by
  simp [dropSuf, List.reverse_append, dropPre_append]

lemma dropSuf_eq_some {suf s r : List Char} (h : dropSuf suf s = some r) :
    s = r ++ suf := by
  unfold dropSuf at h
  cases hd : dropPre suf.reverse s.reverse with
  | none => rw [hd] at h; simp at h
  | some t =>
      rw [hd] at h
      simp only [Option.some.injEq] at h
      have := dropPre_eq_some hd
      have hs : s = t.reverse ++ suf := by
        have := congrArg List.reverse this
        simpa [List.reverse_append] using this
      rw [hs, h]

lemma dVal_digitChar : ∀ k : Nat, k < 10 → dVal (digitChar k) = k := by decide

lemma isDig_digitChar : ∀ k : Nat, k < 10 → isDig (digitChar k) = true := by decide

lemma isWsChar_digitChar : ∀ k : Nat, k < 10 → isWsChar (digitChar k) = false := by decide

lemma digitChar_ne_dash : ∀ k : Nat, k < 10 → ¬ (digitChar k = '-') := by decide

lemma digitChar_ne_plus : ∀ k : Nat, k < 10 → ¬ (digitChar k = '+') := by decide

lemma isDig_dash : isDig '-' = false := by decide

lemma daysInMonth_le_31 (y : Int) (m : Nat) : daysInMonth y m ≤ 31 := by
  unfold daysInMonth
  split_ifs <;> omega

lemma validYmd_bounds {y : Int} {mo da : Nat} (h : validYmd y mo da = true) :
    1 ≤ mo ∧ mo ≤ 12 ∧ 1 ≤ da ∧ da ≤ 31 := by
  have := daysInMonth_le_31 y mo
  simp only [validYmd, Bool.and_eq_true, decide_eq_true_eq] at h
  omega

lemma dropWhile_ws_digit {k : Nat} (hk : k < 10) (l : List Char) :
    (digitChar k :: l).dropWhile isWsChar = digitChar k :: l := by
  rw [List.dropWhile_cons, isWsChar_digitChar k hk]
  simp

lemma dropWhile_ws_pad4 (n : Nat) (l : List Char) :
    (pad4 n ++ l).dropWhile isWsChar = pad4 n ++ l := by
  simp only [pad4, List.cons_append]
  exact dropWhile_ws_digit (by omega) _

lemma dropWhile_ws_pad2 (n : Nat) (l : List Char) :
    (pad2 n ++ l).dropWhile isWsChar = pad2 n ++ l := by
  simp only [pad2, List.cons_append]
  exact dropWhile_ws_digit (by omega) _

lemma scanNum2_pad (n : Nat) (hn : n < 100) (l : List Char) :
    scanNum 2 (pad2 n ++ l) = some (n, l) := by
  have h1 : n / 10 % 10 < 10 := by omega
  have h2 : n % 10 < 10 := by omega
  simp only [scanNum, pad2, List.cons_append, List.nil_append, List.takeWhile_cons,
    isDig_digitChar _ h1, isDig_digitChar _ h2, if_true, List.take_succ_cons,
    List.take_zero, List.isEmpty_cons, List.length_cons, List.length_nil,
    List.drop_succ_cons, List.drop_zero]
  simp [digitsToNat, dVal_digitChar _ h1, dVal_digitChar _ h2]
  omega

lemma scanNum4_pad (n : Nat) (hn : n < 10000) (l : List Char) :
    scanNum 4 (pad4 n ++ l) = some (n, l) := by
  have h1 : n / 1000 % 10 < 10 := by omega
  have h2 : n / 100 % 10 < 10 := by omega
  have h3 : n / 10 % 10 < 10 := by omega
  have h4 : n % 10 < 10 := by omega
  simp only [scanNum, pad4, List.cons_append, List.nil_append, List.takeWhile_cons,
    isDig_digitChar _ h1, isDig_digitChar _ h2, isDig_digitChar _ h3,
    isDig_digitChar _ h4, if_true, List.take_succ_cons, List.take_zero,
    List.isEmpty_cons, List.length_cons, List.length_nil, List.drop_succ_cons,
    List.drop_zero]
  simp [digitsToNat, dVal_digitChar _ h1, dVal_digitChar _ h2, dVal_digitChar _ h3,
    dVal_digitChar _ h4]
  omega

lemma scanYear_pad (n : Nat) (hn : n < 10000) (l : List Char) :
    scanYear (pad4 n ++ l) = some ((n : Int), l) := by
  have h1 : n / 1000 % 10 < 10 := by omega
  have hstep : scanYear (pad4 n ++ l)
      = (scanNum 4 (pad4 n ++ l)).map (fun p => ((p.1 : Int), p.2)) := by
    simp only [pad4, List.cons_append, scanYear,
      if_neg (digitChar_ne_dash _ h1), if_neg (digitChar_ne_plus _ h1)]
  rw [hstep, scanNum4_pad n hn l]
  rfl

lemma parseDate_pad (y mo da : Nat) (hy : y < 10000)
    (hv : validYmd (y : Int) mo da = true) :
    parseDate (pad4 y ++ '-' :: (pad2 mo ++ '-' :: pad2 da)) = some ((y : Int), mo, da) := by
  obtain ⟨hm1, hm2, hd1, hd2⟩ := validYmd_bounds hv
  have hmo : mo < 100 := by omega
  have hda : da < 100 := by omega
  have hda2 : scanNum 2 (pad2 da) = some (da, []) := by
    have := scanNum2_pad da hda []
    simpa using this
  have hdaw : (pad2 da).dropWhile isWsChar = pad2 da := by
    have := dropWhile_ws_pad2 da []
    simpa using this
  unfold parseDate
  rw [dropWhile_ws_pad4 y, scanYear_pad y hy]
  dsimp only
  rw [if_pos rfl, dropWhile_ws_pad2 mo, scanNum2_pad mo hmo]
  dsimp only
  rw [if_pos rfl, hdaw, hda2]
  dsimp only [List.isEmpty_nil]
  rw [if_pos rfl, if_pos hv]

/-- C8 (amended): the per-file decision of `prune_old_log_files` deletes
a name exactly when it splits as `nobreak-<date>.jsonl` with `<date>`
accepted by chrono's lenient `%Y-%m-%d` parse and the parsed date
strictly older than the cutoff `today - retention_days` (clamped to
`today` when the subtraction leaves chrono's date range); in particular
a canonically named `nobreak-YYYY-MM-DD.jsonl` file is deleted exactly
when its date is strictly older than that cutoff (so boundary-dated
canonical files are kept). -/
theorem c8_prune_lenient_exact (retention : Nat) (todayDie : Int) (name : List Char) :
    (prune_deletes retention todayDie name = true ↔
      ∃ ds y mo da, name = "nobreak-".data ++ (ds ++ ".jsonl".data)
        ∧ parseDate ds = some (y, mo, da)
        ∧ rataDie y mo da < cutoffDie todayDie retention)
    ∧ (∀ y mo da : Nat, y < 10000 → validYmd (y : Int) mo da = true →
        (prune_deletes retention todayDie (mkLogName y mo da) = true ↔
          rataDie (y : Int) mo da < cutoffDie todayDie retention)) := by
  constructor
  · constructor
    · intro h
      unfold prune_deletes at h
      split at h
      · simp at h
      · next rest hpre =>
          split at h
          · simp at h
          · next datePart hsuf =>
              split at h
              · simp at h
              · next y mo da hparse =>
                  refine ⟨datePart, y, mo, da, ?_, hparse, of_decide_eq_true h⟩
                  rw [dropPre_eq_some hpre, dropSuf_eq_some hsuf]
    · rintro ⟨ds, y, mo, da, hname, hparse, hold⟩
      subst hname
      unfold prune_deletes
      rw [dropPre_append]
      dsimp only
      rw [dropSuf_append]
      dsimp only
      rw [hparse]
      exact decide_eq_true hold
  · intro y mo da hy hv
    have hre : mkLogName y mo da
        = "nobreak-".data
            ++ ((pad4 y ++ '-' :: (pad2 mo ++ '-' :: pad2 da)) ++ ".jsonl".data) := by
      simp [mkLogName, List.append_assoc]
    have hcalc : prune_deletes retention todayDie (mkLogName y mo da)
        = decide (rataDie (y : Int) mo da < cutoffDie todayDie retention) := by
      unfold prune_deletes
      rw [hre, dropPre_append]
      dsimp only
      rw [dropSuf_append]
      dsimp only
      rw [parseDate_pad y mo da hy hv]
    rw [hcalc]
    exact ⟨of_decide_eq_true, decide_eq_true⟩

/-- Witness for C8 (amended): scenario S5's `nobreak-2025-11-16.jsonl`
is deleted with `retention_days = 90` on 2026-02-15. -/
theorem c8_prune_lenient_exact_witness :
    prune_deletes 90 (rataDie 2026 2 15) (mkLogName 2025 11 16) = true :=
  ((c8_prune_lenient_exact 90 (rataDie 2026 2 15) (mkLogName 2025 11 16)).2
    2025 11 16 (by decide) (by decide)).mpr (by decide)

/-- Counterexample to C8 as stated: chrono's lenient parse accepts the
non-zero-padded date in `nobreak-999-1-1.jsonl`, so the program deletes
a file that does not have the claimed `nobreak-YYYY-MM-DD.jsonl` shape
(here with `retention_days = 90` on 2026-02-15). -/
theorem c8_prune_counterexample :
    prune_deletes 90 (rataDie 2026 2 15) "nobreak-999-1-1.jsonl".data = true
    ∧ ¬ ∃ y mo da : Nat, y < 10000 ∧ validYmd (y : Int) mo da = true
        ∧ "nobreak-999-1-1.jsonl".data = mkLogName y mo da := by
  constructor
  · decide
  · rintro ⟨y, mo, da, -, -, heq⟩
    have hlen := congrArg List.length heq
    have h21 : ("nobreak-999-1-1.jsonl".data).length = 21 := rfl
    have h8 : ("nobreak-".data).length = 8 := rfl
    have h6 : (".jsonl".data).length = 6 := rfl
    rw [h21] at hlen
    simp [mkLogName, pad4, pad2, h8, h6] at hlen

end Nobreak